import Mathlib

/-!
Verification of `camera_monitor.py` (davidfindlay/camera-monitor).

This file shallowly embeds the daemon's pure decision logic in Lean:
device classification (`is_camera`), mount resolution with bounded
polling (`handle_event`), media triage (`extract_exif_date`,
`process_image`, `process_video`, `process_file`), and checks the
specification's claims about them.

Strings from the Python side are modelled as `List Char`; the
filesystem, clock, udev device, EXIF reader and video decoder are
modelled as explicit inputs (success flags, property maps, per-attempt
readings), so every function here is a total, executable Lean
definition whose shape follows the Python source line by line.
-/

namespace CameraMonitor

/-- Python `str.lower()` restricted to what the daemon compares
(ASCII model names and extensions). -/
def toLowerL (s : List Char) : List Char := s.map Char.toLower

/-- Python `str.strip()`: drop whitespace from both ends. -/
def pyStrip (s : List Char) : List Char :=
  ((s.dropWhile Char.isWhitespace).reverse.dropWhile Char.isWhitespace).reverse

/-- Python `str.split(',')` : always at least one field; a trailing or
doubled comma yields an empty field. -/
def splitComma : List Char → List (List Char)
  | [] => [[]]
  | c :: cs =>
    if c = ',' then [] :: splitComma cs
    else
      match splitComma cs with
      | h :: t => (c :: h) :: t
      | [] => [[c]]

/-- `startsWithL hay needle` : `needle` is a prefix of `hay`
(used to build Python's substring test `needle in hay`). -/
def startsWithL : List Char → List Char → Bool
  | _, [] => true
  | [], _ :: _ => false
  | a :: as, b :: bs => a = b && startsWithL as bs

/-- Python `needle in hay` on strings: contiguous-substring test. -/
def containsSub : List Char → List Char → Bool
  | [], needle => needle.isEmpty
  | h :: t, needle => startsWithL (h :: t) needle || containsSub t needle

/-- `dict.get(key, default)` on a device's udev property map. -/
def pyGet (props : List (String × List Char)) (key : String)
    (dflt : List Char) : List Char :=
  match props.find? (fun p => p.1 = key) with
  | some p => p.2
  | none => dflt

/-- Config parsing of the comma-separated list keys
(`camera_monitor.py:25-28`): `image_extensions`, `video_extensions`
and `camera_models` are all read as
`[x.strip().lower() for x in value.split(',')]`. -/
def commaListConfig (value : List Char) : List (List Char) :=
  (splitComma value).map (fun m => toLowerL (pyStrip m))

/-- `CameraDaemon.is_camera` (`camera_monitor.py:91-97`):
`model = device.get('ID_MODEL', '').lower()` and
`any(keyword in model for keyword in self.camera_models)`. -/
def is_camera (camera_models : List (List Char))
    (props : List (String × List Char)) : Bool :=
  let model := toLowerL (pyGet props "ID_MODEL" [])
  camera_models.any (fun keyword => containsSub model keyword)

/-- The classification verdicts named by the specification. -/
inductive Kind where
  | none
  | massStorage
  | ptp
  deriving DecidableEq, Repr

/-- The classification the source actually performs: `handle_event`
consults only `is_camera`, which reads only `ID_MODEL`; a positive
verdict routes the device down the mass-storage (mount) path and a
negative one ignores it.  No code path of `camera_monitor.py` inspects
a PTP-capability property or produces a `ptp` verdict. -/
def classify (camera_models : List (List Char))
    (props : List (String × List Char)) : Kind :=
  if is_camera camera_models props then Kind.massStorage else Kind.none

/-- A property map has an explicit PTP-capability property (such as
udev's `ID_GPHOTO2`) among its keys. -/
def hasPTPProperty (props : List (String × List Char)) : Bool :=
  props.any (fun p => p.1 = "ID_GPHOTO2")

/-! ## Hotplug event handling and mount resolution

`CameraDaemon.handle_event` (`camera_monitor.py:193-225`) and
`CameraDaemon.get_device_mount_path` (`camera_monitor.py:83-89`).

The environment an event is handled in — the shutdown flag, the
device's mount-point list (re-read on every poll attempt), and the
filesystem's `Path.exists()` — is modelled as explicit time-indexed
inputs.  `get_device_mount_path` returns the first entry of
`device.mount_points` or `None`; here each read of it is just an
`Option String` supplied by the environment. -/

/-- One udev event as seen by `handle_event`: the device's `action`
string and its property map. -/
structure Event where
  action : String
  props : List (String × List Char)

/-- The environment of one `handle_event` invocation.
`shutdown0` is the value of `shutdown_event.is_set()` at entry and at
the immediate-mount check; `shutdownAt i` its value at the check
opening poll iteration `i`; `mount0` the initial
`get_device_mount_path` reading; `mountAt i` the reading taken inside
poll iteration `i` (after the one-second sleep); `pathExists` the
filesystem's `Path.exists()`. -/
structure Env where
  shutdown0 : Bool
  shutdownAt : Nat → Bool
  mount0 : Option String
  mountAt : Nat → Option String
  pathExists : String → Bool

/-- Everything `handle_event` can do with a qualifying device. -/
inductive Outcome where
  | ignoredShutdown
  | notAdd
  | notCamera
  | spawned (mountPath : String)
  | abortedShutdown
  | mountTimeout
  deriving DecidableEq, Repr

/-- The automount wait loop (`camera_monitor.py:214-225`):
`for _ in range(10): if shutdown: return; sleep(1); re-read mount; if
found: spawn worker; break` with a `for/else` that logs an error when
the ceiling is exhausted.  Returns the outcome paired with the number
of one-second sleeps performed.  `fuel` counts the remaining loop
iterations (10 at entry), `i` the current iteration index. -/
def pollLoop (env : Env) : Nat → Nat → Outcome × Nat
  | 0, _ => (Outcome.mountTimeout, 0)
  | fuel + 1, i =>
    if env.shutdownAt i then (Outcome.abortedShutdown, 0)
    else
      match env.mountAt i with
      | some p =>
        if env.pathExists p then (Outcome.spawned p, 1)
        else
          let r := pollLoop env fuel (i + 1)
          (r.1, r.2 + 1)
      | none =>
        let r := pollLoop env fuel (i + 1)
        (r.1, r.2 + 1)

/-- `CameraDaemon.handle_event` (`camera_monitor.py:193-225`):
discard events after shutdown; only `add` actions are dispatched;
`is_camera` gates everything; an immediately available and existing
mount path spawns a worker thread at once, otherwise the device enters
the bounded automount wait. -/
def handle_event (camera_models : List (List Char)) (env : Env)
    (e : Event) : Outcome × Nat :=
  if env.shutdown0 then (Outcome.ignoredShutdown, 0)
  else if e.action ≠ "add" then (Outcome.notAdd, 0)
  else if ¬ is_camera camera_models e.props then (Outcome.notCamera, 0)
  else
    match env.mount0 with
    | some p =>
      if env.pathExists p then (Outcome.spawned p, 0)
      else pollLoop env 10 0
    | none => pollLoop env 10 0

/-- The daemon's record of running ingestion jobs, as the source
keeps it: `handle_event` starts a `threading.Thread` per spawn and
retains no handle and no registry, so the only job state is the list
of threads started so far (represented by their mount paths). -/
def jobStep (camera_models : List (List Char)) (jobs : List String)
    (input : Env × Event) : List String :=
  match (handle_event camera_models input.1 input.2).1 with
  | Outcome.spawned p => jobs ++ [p]
  | _ => jobs

/-- Fold `handle_event` over a sequence of events, accumulating the
spawned-thread list. -/
def runEvents (camera_models : List (List Char))
    (inputs : List (Env × Event)) : List String :=
  inputs.foldl (jobStep camera_models) []

/-- `env.mountAt i` does not resolve to an existing path at attempt `i`. -/
def mountMiss (env : Env) (i : Nat) : Prop :=
  match env.mountAt i with
  | some p => env.pathExists p = false
  | none => True

instance (env : Env) (i : Nat) : Decidable (mountMiss env i) := by
  unfold mountMiss
  cases env.mountAt i with
  | some p => exact inferInstanceAs (Decidable (_ = false))
  | none => exact inferInstanceAs (Decidable True)

/-! ## Media triage: EXIF dates and archive buckets

`CameraDaemon.extract_exif_date` (`camera_monitor.py:99-112`),
`CameraDaemon.process_image` (`camera_monitor.py:114-127`). -/

/-- A calendar date, the result of `datetime.date()`. -/
structure Date where
  year : Nat
  month : Nat
  day : Nat
  deriving DecidableEq, Repr

/-- Gregorian leap-year test, as `datetime` validates days. -/
def isLeap (y : Nat) : Bool :=
  y % 4 = 0 && (y % 100 ≠ 0 || y % 400 = 0)

/-- Days in a month, as `datetime` validates the day field. -/
def daysInMonth (y m : Nat) : Nat :=
  if m = 2 then (if isLeap y then 29 else 28)
  else if m = 4 ∨ m = 6 ∨ m = 9 ∨ m = 11 then 30
  else 31

/-- Numeric value of an ASCII digit. -/
def digitVal (c : Char) : Nat := c.toNat - '0'.toNat

/-- Exactly four digits (the `%Y` field of `strptime`). -/
def parse4 : List Char → Option (Nat × List Char)
  | a :: b :: c :: d :: rest =>
    if a.isDigit && b.isDigit && c.isDigit && d.isDigit then
      some (((digitVal a * 10 + digitVal b) * 10 + digitVal c) * 10 + digitVal d, rest)
    else none
  | _ => none

/-- One or two digits, greedily (the `%m`/`%d`/`%H`/`%M`/`%S` fields;
out-of-range values are rejected afterwards, matching `strptime`'s
combination of field regexes and `datetime` construction). -/
def parse12 : List Char → Option (Nat × List Char)
  | [] => none
  | [a] => if a.isDigit then some (digitVal a, []) else none
  | a :: b :: rest =>
    if a.isDigit then
      if b.isDigit then some (digitVal a * 10 + digitVal b, rest)
      else some (digitVal a, b :: rest)
    else none

/-- Consume one expected literal character. -/
def expectChar (c : Char) : List Char → Option (List Char)
  | x :: rest => if x = c then some rest else none
  | [] => none

/-- The six numeric fields of `"%Y:%m:%d %H:%M:%S"`, requiring the
whole string to be consumed (`strptime` raises on trailing data). -/
def strptimeFields (s : List Char) : Option (Nat × Nat × Nat × Nat × Nat × Nat) := do
  let (y, s) ← parse4 s
  let s ← expectChar ':' s
  let (mo, s) ← parse12 s
  let s ← expectChar ':' s
  let (d, s) ← parse12 s
  let s ← expectChar ' ' s
  let (h, s) ← parse12 s
  let s ← expectChar ':' s
  let (mi, s) ← parse12 s
  let s ← expectChar ':' s
  let (sec, s) ← parse12 s
  if s.isEmpty then pure (y, mo, d, h, mi, sec) else none

/-- `datetime.strptime(date_str, "%Y:%m:%d %H:%M:%S").date()`
(`camera_monitor.py:109`), as an `Option`: `none` where `strptime`
or the `datetime` constructor would raise `ValueError`. -/
def strptimeExif (s : List Char) : Option Date :=
  match strptimeFields s with
  | none => none
  | some (y, mo, d, h, mi, sec) =>
    if 1 ≤ y ∧ y ≤ 9999 ∧ 1 ≤ mo ∧ mo ≤ 12 ∧ 1 ≤ d ∧ d ≤ daysInMonth y mo
        ∧ h ≤ 23 ∧ mi ≤ 59 ∧ sec ≤ 59 then
      some ⟨y, mo, d⟩
    else none

/-- `CameraDaemon.extract_exif_date` (`camera_monitor.py:99-112`).
The EXIF reader step (`open` + `exifread.process_file` +
`tags.get("EXIF DateTimeOriginal")`) is an external collaborator,
modelled by its outcome: `.error ()` when reading raised, `.ok none`
when the tag is absent, `.ok (some s)` when the tag rendered as `s`.
Every failure — read exception, absent tag, or a parse `ValueError`
(caught by the same `except`) — yields `none`; no error escapes. -/
def extract_exif_date (readResult : Except Unit (Option (List Char))) :
    Option Date :=
  match readResult with
  | Except.error _ => none
  | Except.ok none => none
  | Except.ok (some s) => strptimeExif s

/-- Two-digit zero-padded decimal, as `strftime` renders `%m`, `%d`,
`%H`, `%M`, `%S`. -/
def pad2 (n : Nat) : String :=
  if n < 10 then "0" ++ toString n else toString n

/-- Four-digit zero-padded decimal, as `strftime` renders `%Y`. -/
def pad4 (n : Nat) : String :=
  if n < 10 then "000" ++ toString n
  else if n < 100 then "00" ++ toString n
  else if n < 1000 then "0" ++ toString n
  else toString n

/-- `date.strftime("%Y-%m-%d")`: the archive-bucket directory name. -/
def fmtDate (d : Date) : String :=
  pad4 d.year ++ "-" ++ pad2 d.month ++ "-" ++ pad2 d.day

/-- The bucket a file is archived under (`camera_monitor.py:118-121`
and `135-138`): the EXIF date when one was extracted, else today. -/
def bucketDate (readResult : Except Unit (Option (List Char)))
    (today : Date) : Date :=
  (extract_exif_date readResult).getD today

/-- Filesystem effects of processing one file: directories passed to
`mkdir(parents=True, exist_ok=True)` and destination directories of
successful copies. -/
structure FileEffects where
  createdDirs : List String
  copied : List String
  deriving DecidableEq, Repr

/-- `CameraDaemon.process_image` (`camera_monitor.py:114-127`):
resolve the date, make the date directory, then try `shutil.copy2`;
a copy failure is caught and logged.  `copyOk` models whether
`shutil.copy2` succeeds. -/
def process_image (incoming : String) (today : Date)
    (readResult : Except Unit (Option (List Char)))
    (copyOk : Bool) : FileEffects :=
  let date := bucketDate readResult today
  let dateDir := incoming ++ "/" ++ fmtDate date
  { createdDirs := [dateDir]
    copied := if copyOk then [dateDir] else [] }

/-! ## Video processing

`CameraDaemon.process_video` (`camera_monitor.py:129-166`). -/

/-- Python `range(0, stop, step)` for a positive step, from `cur`. -/
def rangeFrom (stop step cur : Nat) : List Nat :=
  if _h : 0 < step ∧ cur < stop then cur :: rangeFrom stop step (cur + step)
  else []
termination_by stop - cur
decreasing_by omega

/-- Python `range(0, stop, step)`: `none` models the `ValueError`
raised when the step is zero. -/
def pyRange0 (stop step : Nat) : Option (List Nat) :=
  if step = 0 then none else some (rangeFrom stop step 0)

/-- `datetime.fromtimestamp(t).strftime("%H-%M-%S")`
(`camera_monitor.py:155`): `t` is interpreted as a UNIX epoch
timestamp and converted to the LOCAL timezone, modelled as a fixed
UTC offset `tzOffset` in seconds, before being formatted. -/
def hmsLocal (tzOffset : Int) (t : Nat) : String :=
  let sod := (((t : Int) + tzOffset) % 86400).toNat
  pad2 (sod / 3600) ++ "-" ++ pad2 (sod % 3600 / 60) ++ "-" ++ pad2 (sod % 60)

/-- The label the specification describes: the zero-padded `HH-MM-SS`
rendering of the frame offset `t` itself, independent of any
environment. -/
def hmsOffset (t : Nat) : String :=
  pad2 (t / 3600) ++ "-" ++ pad2 (t % 3600 / 60) ++ "-" ++ pad2 (t % 60)

/-- The screenshot file name written by `process_video`
(`camera_monitor.py:155-156`):
`f"{original_filename}_screenshot_{timestamp}.jpg"`. -/
def screenshot_filename (stem : String) (tzOffset : Int) (t : Nat) : String :=
  stem ++ "_screenshot_" ++ hmsLocal tzOffset t ++ ".jpg"

/-- The inputs of one `process_video` run.  External collaborators
(filesystem, EXIF reader, `moviepy` decoder, clock, timezone) appear
as explicit outcomes: `copyOk` for `shutil.copy2`; `openOk` for the
`VideoFileClip` constructor; `durationVal` for `int(clip.duration)`
(`none` models it raising, e.g. on a `None` duration); `shutdownAt k`
the shutdown flag at loop iteration `k`; `frameOk t` whether frame
extraction and saving at offset `t` succeed; `hasAudio` whether
`clip.audio` is truthy. -/
structure VideoEnv where
  incoming : String
  today : Date
  exifRead : Except Unit (Option (List Char))
  copyOk : Bool
  openOk : Bool
  durationVal : Option Nat
  interval : Nat
  shutdownAt : Nat → Bool
  frameOk : Nat → Bool
  hasAudio : Bool
  tzOffset : Int
  stem : String

/-- Observable result of one `process_video` run. -/
structure VideoResult where
  createdDirs : List String
  copiedVideo : Bool
  opened : Bool
  savedShots : List String
  readerClosed : Bool
  audioClosed : Bool
  deriving DecidableEq, Repr

/-- The screenshot loop (`camera_monitor.py:148-161`): for each
offset, first check the shutdown event (`break` ends the loop), then
try to extract and save the frame; a per-frame failure is caught,
logged, and the loop continues with the next offset. -/
def framesLoop (env : VideoEnv) : List Nat → Nat → List String
  | [], _ => []
  | t :: ts, k =>
    if env.shutdownAt k then []
    else if env.frameOk t then
      screenshot_filename env.stem env.tzOffset t :: framesLoop env ts (k + 1)
    else framesLoop env ts (k + 1)

/-- `CameraDaemon.process_video` (`camera_monitor.py:129-166`).
The whole body sits in one `try/except` with no `finally`:
`clip.reader.close()` and the audio close run only when control
reaches them in sequence.  `mkdir` on the `screencaps` path (with
`parents=True`) creates both the date directory and the sub-bucket,
before the copy is attempted.  (`clip.audio` access and
`close_proc()` are assumed not to raise.) -/
def process_video (env : VideoEnv) : VideoResult :=
  let date := bucketDate env.exifRead env.today
  let dateDir := env.incoming ++ "/" ++ fmtDate date
  let screencapDir := dateDir ++ "/screencaps"
  let created := [dateDir, screencapDir]
  if env.copyOk then
    if env.openOk then
      match env.durationVal with
      | some d =>
        match pyRange0 d env.interval with
        | some offsets =>
          -- The loop ran its course (possibly broken by shutdown or with
          -- per-frame failures logged); both closes are then reached.
          ⟨created, true, true, framesLoop env offsets 0, true, env.hasAudio⟩
        | none =>
          -- `range(0, duration, 0)` raised with the decoder open: close is skipped.
          ⟨created, true, true, [], false, false⟩
      | none =>
        -- `int(clip.duration)` raised with the decoder open: close is skipped.
        ⟨created, true, true, [], false, false⟩
    else
      -- `VideoFileClip(...)` raised after a successful copy.
      ⟨created, true, false, [], false, false⟩
  else
    -- `shutil.copy2` raised; the outer `except` logs; no decoder was opened.
    ⟨created, false, false, [], false, false⟩

/-! ## File-type dispatch

`CameraDaemon.process_file` (`camera_monitor.py:168-177`). -/

/-- The characters from the LAST `'.'` of the list onward (dot
included), `none` when there is no dot. -/
def pySuffixCore : List Char → Option (List Char)
  | [] => none
  | c :: cs =>
    match pySuffixCore cs with
    | some s => some s
    | none => if c = '.' then some (c :: cs) else none

/-- `pathlib.PurePath.suffix` of a final path component: the part
from the last dot onward, but empty when the only dot is the first
character (hidden files) or the last character. -/
def pySuffix (name : List Char) : List Char :=
  match name with
  | [] => []
  | _ :: cs =>
    match pySuffixCore cs with
    | some s => if 2 ≤ s.length then s else []
    | none => []

/-- What `process_file` does with one file. -/
inductive FileAction where
  | image
  | video
  | skipped
  deriving DecidableEq, Repr

/-- `CameraDaemon.process_file` (`camera_monitor.py:168-177`):
`file_path.suffix.lower()` is membership-tested against the two
configured lists; anything else is skipped with an info log. -/
def process_file (image_extensions video_extensions : List (List Char))
    (name : List Char) : FileAction :=
  let sfx := toLowerL (pySuffix name)
  if sfx ∈ image_extensions then FileAction.image
  else if sfx ∈ video_extensions then FileAction.video
  else FileAction.skipped

/-! ## Helper lemmas -/

theorem startsWithL_nil (hay : List Char) : startsWithL hay [] = true := by
  cases hay <;> rfl

theorem containsSub_nil (hay : List Char) : containsSub hay [] = true := by
  cases hay with
  | nil => rfl
  | cons h t => simp [containsSub, startsWithL_nil]

theorem is_camera_congr (camera_models : List (List Char))
    (props props' : List (String × List Char))
    (h : pyGet props "ID_MODEL" [] = pyGet props' "ID_MODEL" []) :
    is_camera camera_models props = is_camera camera_models props' := by
  unfold is_camera
  rw [h]

/-! ## Claims about the Device Classifier (C1, C10) -/

/-- C1, counterexample.  A device carrying an explicit PTP-capability
property (`ID_GPHOTO2`) but whose model name matches no configured
substring is classified `none`, not `ptp`: the claim that such a
device always yields `ptp` is false of `is_camera`
(`camera_monitor.py:91-97`), which never consults that property. -/
theorem claim_C1_counterexample :
    hasPTPProperty [("ID_GPHOTO2", "1".toList), ("ID_MODEL", "Widget2000".toList)] = true
    ∧ classify (commaListConfig "canon, nikon".toList)
        [("ID_GPHOTO2", "1".toList), ("ID_MODEL", "Widget2000".toList)] = Kind.none := by
  constructor
  · decide
  · decide

/-- C1, amended: the classifier of this source never returns `ptp` at
all, and its verdict depends on the device's properties only through
the `ID_MODEL` value — a PTP-capability property (or any other
property) has no effect on classification. -/
theorem claim_C1 (camera_models : List (List Char))
    (props : List (String × List Char)) :
    classify camera_models props ≠ Kind.ptp
    ∧ (∀ props' : List (String × List Char),
        pyGet props "ID_MODEL" [] = pyGet props' "ID_MODEL" [] →
        classify camera_models props = classify camera_models props') := by
  constructor
  · unfold classify
    split <;> simp
  · intro props' h
    unfold classify
    rw [is_camera_congr camera_models props props' h]

/-- C1, witness: adding the explicit PTP property `ID_GPHOTO2` to a
concrete device leaves its classification unchanged, and that
classification is not `ptp`. -/
theorem claim_C1_witness :
    classify (commaListConfig "canon, nikon".toList)
        [("ID_GPHOTO2", "1".toList), ("ID_MODEL", "Widget2000".toList)]
      = classify (commaListConfig "canon, nikon".toList)
        [("ID_MODEL", "Widget2000".toList)]
    ∧ classify (commaListConfig "canon, nikon".toList)
        [("ID_GPHOTO2", "1".toList), ("ID_MODEL", "Widget2000".toList)] ≠ Kind.ptp := by
  refine ⟨?_, ?_⟩
  · exact (claim_C1 (commaListConfig "canon, nikon".toList)
        [("ID_GPHOTO2", "1".toList), ("ID_MODEL", "Widget2000".toList)]).2
        [("ID_MODEL", "Widget2000".toList)] (by decide)
  · exact (claim_C1 (commaListConfig "canon, nikon".toList)
        [("ID_GPHOTO2", "1".toList), ("ID_MODEL", "Widget2000".toList)]).1

/-- C10: if the configured `camera_models` list contains the empty
string (e.g. from a trailing or doubled comma in the config value,
since `"canon,".split(',') == ["canon", ""]`), then `is_camera`
accepts every device: Python's `"" in model` is always true, including
for a device with no `ID_MODEL` property, whose model defaults to the
empty string. -/
theorem claim_C10 (value : List Char) (props : List (String × List Char))
    (h : [] ∈ commaListConfig value) :
    is_camera (commaListConfig value) props = true := by
  unfold is_camera
  rw [List.any_eq_true]
  exact ⟨[], h, containsSub_nil _⟩

/-- C10, witness: with `camera_models = "canon,"` a device with no
properties at all is classified as a camera. -/
theorem claim_C10_witness :
    is_camera (commaListConfig "canon,".toList) [] = true :=
  claim_C10 "canon,".toList [] (by decide)

/-! ## Lemmas about the automount poll loop -/

theorem pollLoop_timeout (env : Env) :
    ∀ (fuel i : Nat),
      (∀ j, i ≤ j → j < i + fuel → env.shutdownAt j = false ∧ mountMiss env j) →
      pollLoop env fuel i = (Outcome.mountTimeout, fuel) := by
  intro fuel
  induction fuel with
  | zero => intro i _; rfl
  | succ n ih =>
    intro i h
    have hi := h i (Nat.le_refl i) (by omega)
    have hmiss := hi.2
    unfold pollLoop
    rw [hi.1]
    simp only [Bool.false_eq_true, if_false]
    unfold mountMiss at hmiss
    cases hmt : env.mountAt i with
    | none =>
      simp only []
      rw [ih (i + 1) (fun j hj1 hj2 => h j (by omega) (by omega))]
    | some p =>
      rw [hmt] at hmiss
      simp only [hmiss, Bool.false_eq_true, if_false]
      rw [ih (i + 1) (fun j hj1 hj2 => h j (by omega) (by omega))]

theorem pollLoop_abort (env : Env) :
    ∀ (fuel i j0 : Nat), i ≤ j0 → j0 < i + fuel →
      env.shutdownAt j0 = true →
      (∀ j, i ≤ j → j < j0 → env.shutdownAt j = false ∧ mountMiss env j) →
      pollLoop env fuel i = (Outcome.abortedShutdown, j0 - i) := by
  intro fuel
  induction fuel with
  | zero => intro i j0 h1 h2 _ _; omega
  | succ n ih =>
    intro i j0 h1 h2 hset hbefore
    unfold pollLoop
    rcases Nat.eq_or_lt_of_le h1 with heq | hlt
    · subst heq
      rw [hset]
      simp only [if_true, Nat.sub_self]
    · have hi := hbefore i (Nat.le_refl i) hlt
      have hmiss := hi.2
      rw [hi.1]
      simp only [Bool.false_eq_true, if_false]
      unfold mountMiss at hmiss
      have hrec : pollLoop env n (i + 1) = (Outcome.abortedShutdown, j0 - (i + 1)) :=
        ih (i + 1) j0 (by omega) (by omega) hset
          (fun j hj1 hj2 => hbefore j (by omega) hj2)
      cases hmt : env.mountAt i with
      | none =>
        simp only []
        rw [hrec]
        simp only [Prod.mk.injEq, true_and]
        omega
      | some p =>
        rw [hmt] at hmiss
        simp only [hmiss, Bool.false_eq_true, if_false]
        rw [hrec]
        simp only [Prod.mk.injEq, true_and]
        omega

theorem pollLoop_congr (env env' : Env) :
    ∀ (fuel i : Nat),
      (∀ j, i ≤ j → j < i + fuel →
        env.shutdownAt j = env'.shutdownAt j ∧ env.mountAt j = env'.mountAt j) →
      env.pathExists = env'.pathExists →
      pollLoop env fuel i = pollLoop env' fuel i := by
  intro fuel
  induction fuel with
  | zero => intro i _ _; rfl
  | succ n ih =>
    intro i h hfs
    have hi := h i (Nat.le_refl i) (by omega)
    unfold pollLoop
    rw [hi.1, hi.2, hfs]
    have hrec := ih (i + 1) (fun j hj1 hj2 => h j (by omega) (by omega)) hfs
    rw [hrec]

/-! ## Claims about event handling (C2, C3) -/

/-- C2, counterexample.  The daemon keeps no registry of running
ingestion jobs: processing the same qualifying add-event twice — the
first job still "active" in the accumulated thread list — starts a
second thread for the same mount path instead of ignoring or queuing
the event. -/
theorem claim_C2_counterexample :
    runEvents (commaListConfig "canon".toList)
      (List.replicate 2
        ({ shutdown0 := false, shutdownAt := fun _ => false,
           mount0 := some "/mnt/cam", mountAt := fun _ => none,
           pathExists := fun _ => true },
         { action := "add", props := [("ID_MODEL", "CANON_D".toList)] }))
      = ["/mnt/cam", "/mnt/cam"] := by
  decide

/-- C2, amended: `handle_event` consults no job state at all — every
qualifying add-event appends a freshly spawned thread to the job
list, even when a job for the same mount path is already present. -/
theorem claim_C2 (camera_models : List (List Char)) (jobs : List String)
    (env : Env) (e : Event) (p : String)
    (_hactive : p ∈ jobs)
    (hspawn : (handle_event camera_models env e).1 = Outcome.spawned p) :
    jobStep camera_models jobs (env, e) = jobs ++ [p] := by
  unfold jobStep
  rw [hspawn]

/-- C2, witness: a second add-event for `/mnt/cam`, whose job is
already in the job list, appends a second `/mnt/cam` job. -/
theorem claim_C2_witness :
    jobStep (commaListConfig "canon".toList) ["/mnt/cam"]
      ({ shutdown0 := false, shutdownAt := fun _ => false,
         mount0 := some "/mnt/cam", mountAt := fun _ => none,
         pathExists := fun _ => true },
       { action := "add", props := [("ID_MODEL", "CANON_D".toList)] })
      = ["/mnt/cam", "/mnt/cam"] :=
  claim_C2 (commaListConfig "canon".toList) ["/mnt/cam"] _ _ "/mnt/cam"
    (by decide) (by decide)

/-- C3: for a qualifying add-event whose device has no mount point
yet, `handle_event` enters the automount wait
(`camera_monitor.py:214-225`) and
(1) if all 10 attempts miss and no shutdown is seen, the outcome is
`mountTimeout` — the logged-error skip — after exactly 10 one-second
sleeps, and no worker thread is ever spawned;
(2) a shutdown flag observed at poll iteration `j0` (all earlier
attempts missing) aborts immediately with the non-error
`abortedShutdown` outcome after `j0` sleeps;
(3) the loop performs at most 10 attempts: its result depends only on
the first 10 shutdown-flag and mount-state readings. -/
theorem claim_C3 (camera_models : List (List Char)) (env : Env) (e : Event)
    (h0 : env.shutdown0 = false) (ha : e.action = "add")
    (hc : is_camera camera_models e.props = true) (hm : env.mount0 = none) :
    handle_event camera_models env e = pollLoop env 10 0
    ∧ ((∀ j, j < 10 → env.shutdownAt j = false ∧ mountMiss env j) →
        handle_event camera_models env e = (Outcome.mountTimeout, 10)
        ∧ ∀ p, (handle_event camera_models env e).1 ≠ Outcome.spawned p)
    ∧ (∀ j0, j0 < 10 → env.shutdownAt j0 = true →
        (∀ j, j < j0 → env.shutdownAt j = false ∧ mountMiss env j) →
        handle_event camera_models env e = (Outcome.abortedShutdown, j0))
    ∧ (∀ env' : Env,
        (∀ j, j < 10 →
          env.shutdownAt j = env'.shutdownAt j ∧ env.mountAt j = env'.mountAt j) →
        env.pathExists = env'.pathExists →
        pollLoop env 10 0 = pollLoop env' 10 0) := by
  have hdispatch : handle_event camera_models env e = pollLoop env 10 0 := by
    unfold handle_event
    rw [h0, ha, hc, hm]
    simp
  refine ⟨hdispatch, ?_, ?_, ?_⟩
  · intro hmissall
    have ht : pollLoop env 10 0 = (Outcome.mountTimeout, 10) :=
      pollLoop_timeout env 10 0 (fun j _ hj2 => hmissall j (by omega))
    rw [hdispatch, ht]
    exact ⟨rfl, fun p => by simp⟩
  · intro j0 hj0 hset hbefore
    rw [hdispatch]
    have := pollLoop_abort env 10 0 j0 (Nat.zero_le j0) (by omega) hset
      (fun j _ hj2 => hbefore j hj2)
    simpa using this
  · intro env' hagree hfs
    exact pollLoop_congr env env' 10 0 (fun j _ hj2 => hagree j (by omega)) hfs

/-- C3, witness: concretely, a device whose mount never appears times
out with a logged error after 10 attempts, and one whose poll sees the
shutdown flag at iteration 3 aborts with outcome `abortedShutdown`
after 3 sleeps. -/
theorem claim_C3_witness :
    handle_event (commaListConfig "canon".toList)
      { shutdown0 := false, shutdownAt := fun _ => false,
        mount0 := none, mountAt := fun _ => none,
        pathExists := fun _ => true }
      { action := "add", props := [("ID_MODEL", "CANON_D".toList)] }
      = (Outcome.mountTimeout, 10)
    ∧ handle_event (commaListConfig "canon".toList)
      { shutdown0 := false, shutdownAt := fun i => decide (i = 3),
        mount0 := none, mountAt := fun _ => none,
        pathExists := fun _ => true }
      { action := "add", props := [("ID_MODEL", "CANON_D".toList)] }
      = (Outcome.abortedShutdown, 3) := by
  constructor
  · exact ((claim_C3 (commaListConfig "canon".toList)
      { shutdown0 := false, shutdownAt := fun _ => false,
        mount0 := none, mountAt := fun _ => none,
        pathExists := fun _ => true }
      { action := "add", props := [("ID_MODEL", "CANON_D".toList)] }
      rfl rfl (by decide) rfl).2.1 (by decide)).1
  · exact (claim_C3 (commaListConfig "canon".toList)
      { shutdown0 := false, shutdownAt := fun i => decide (i = 3),
        mount0 := none, mountAt := fun _ => none,
        pathExists := fun _ => true }
      { action := "add", props := [("ID_MODEL", "CANON_D".toList)] }
      rfl rfl (by decide) rfl).2.2.1 3 (by decide) (by decide) (by decide)

/-! ## Lemmas about `range(0, stop, step)` and the screenshot loop -/

theorem rangeFrom_pos (stop step cur : Nat) (h : 0 < step ∧ cur < stop) :
    rangeFrom stop step cur = cur :: rangeFrom stop step (cur + step) := by
  rw [rangeFrom, dif_pos h]

theorem rangeFrom_neg (stop step cur : Nat) (h : ¬(0 < step ∧ cur < stop)) :
    rangeFrom stop step cur = [] := by
  rw [rangeFrom, dif_neg h]

theorem rangeFrom_mem (stop step : Nat) (hstep : 0 < step) :
    ∀ (cur x : Nat),
      x ∈ rangeFrom stop step cur ↔ ∃ k, x = cur + k * step ∧ x < stop := by
  have key : ∀ (n cur x : Nat), stop - cur ≤ n →
      (x ∈ rangeFrom stop step cur ↔ ∃ k, x = cur + k * step ∧ x < stop) := by
    intro n
    induction n with
    | zero =>
      intro cur x hn
      rw [rangeFrom_neg stop step cur (by omega)]
      simp only [List.not_mem_nil, false_iff, not_exists, not_and]
      intro k hx
      omega
    | succ n ih =>
      intro cur x hn
      by_cases hc : cur < stop
      · rw [rangeFrom_pos stop step cur ⟨hstep, hc⟩]
        simp only [List.mem_cons]
        rw [ih (cur + step) x (by omega)]
        constructor
        · rintro (rfl | ⟨k, rfl, hk⟩)
          · exact ⟨0, by omega, hc⟩
          · refine ⟨k + 1, ?_, hk⟩
            rw [Nat.succ_mul]
            omega
        · rintro ⟨k, rfl, hk⟩
          cases k with
          | zero => left; omega
          | succ k' =>
            right
            refine ⟨k', ?_, hk⟩
            rw [Nat.succ_mul]
            omega
      · rw [rangeFrom_neg stop step cur (by omega)]
        simp only [List.not_mem_nil, false_iff, not_exists, not_and]
        intro k hx
        omega
  intro cur x
  exact key (stop - cur) cur x (Nat.le_refl _)

theorem rangeFrom_length (stop step : Nat) (hstep : 0 < step) :
    ∀ cur, (rangeFrom stop step cur).length = (stop - cur + step - 1) / step := by
  have key : ∀ (n cur : Nat), stop - cur ≤ n →
      (rangeFrom stop step cur).length = (stop - cur + step - 1) / step := by
    intro n
    induction n with
    | zero =>
      intro cur hn
      rw [rangeFrom_neg stop step cur (by omega)]
      have h0 : stop - cur = 0 := by omega
      rw [h0]
      simp only [List.length_nil]
      exact (Nat.div_eq_of_lt (by omega)).symm
    | succ n ih =>
      intro cur hn
      by_cases hc : cur < stop
      · rw [rangeFrom_pos stop step cur ⟨hstep, hc⟩]
        simp only [List.length_cons]
        rw [ih (cur + step) (by omega)]
        by_cases hR : stop ≤ cur + step
        · have h1 : stop - (cur + step) = 0 := by omega
          rw [h1]
          rw [Nat.div_eq_of_lt (show 0 + step - 1 < step by omega)]
          rw [Nat.div_eq_of_lt_le
            (show 1 * step ≤ stop - cur + step - 1 by omega)
            (show stop - cur + step - 1 < (1 + 1) * step by omega)]
        · have h1 : stop - (cur + step) + step - 1 = stop - cur - 1 := by omega
          have h2 : stop - cur + step - 1 = (stop - cur - 1) + step := by omega
          rw [h1, h2, Nat.add_div_right _ hstep]
      · rw [rangeFrom_neg stop step cur (by omega)]
        have h0 : stop - cur = 0 := by omega
        rw [h0]
        simp only [List.length_nil]
        exact (Nat.div_eq_of_lt (by omega)).symm
  intro cur
  exact key (stop - cur) cur (Nat.le_refl _)

theorem framesLoop_map (env : VideoEnv)
    (h1 : ∀ k, env.shutdownAt k = false) (h2 : ∀ t, env.frameOk t = true) :
    ∀ (ts : List Nat) (k : Nat),
      framesLoop env ts k = ts.map (screenshot_filename env.stem env.tzOffset) := by
  intro ts
  induction ts with
  | nil => intro k; rfl
  | cons t ts ih =>
    intro k
    unfold framesLoop
    rw [h1 k, h2 t]
    simp only [Bool.false_eq_true, if_false, if_true, List.map_cons]
    rw [ih (k + 1)]

/-! ## Claim about screenshot offsets and counts (C4) -/

/-- C4: with the copy and decoder succeeding, an integer-truncated
duration `D`, a positive interval, no cancellation and no per-frame
failure, `process_video` saves one frame per element of
`range(0, D, interval)`, whose elements are exactly the multiples of
the interval strictly below `D`, and whose count is
`(D + interval - 1) / interval`, i.e. `⌈D / interval⌉`. -/
theorem claim_C4 (env : VideoEnv) (D : Nat)
    (hcopy : env.copyOk = true) (hopen : env.openOk = true)
    (hdur : env.durationVal = some D) (hI : 0 < env.interval)
    (hsd : ∀ k, env.shutdownAt k = false) (hfr : ∀ t, env.frameOk t = true) :
    (process_video env).savedShots
      = (rangeFrom D env.interval 0).map (screenshot_filename env.stem env.tzOffset)
    ∧ (∀ x, x ∈ rangeFrom D env.interval 0 ↔ ∃ k, x = k * env.interval ∧ x < D)
    ∧ (rangeFrom D env.interval 0).length = (D + env.interval - 1) / env.interval := by
  refine ⟨?_, ?_, ?_⟩
  · have hr : pyRange0 D env.interval = some (rangeFrom D env.interval 0) := by
      unfold pyRange0
      rw [if_neg (by omega)]
    simp only [process_video, hcopy, hopen, hdur, if_true, hr]
    exact framesLoop_map env hsd hfr _ 0
  · intro x
    rw [rangeFrom_mem D env.interval hI 0 x]
    constructor
    · rintro ⟨k, rfl, hk⟩
      exact ⟨k, by omega, hk⟩
    · rintro ⟨k, rfl, hk⟩
      exact ⟨k, by omega, hk⟩
  · rw [rangeFrom_length D env.interval hI 0, Nat.sub_zero]

/-- C4, witness: the specification's own example — a 65-second video
at a 30-second interval yields frames at offsets 0, 30 and 60,
three in all. -/
theorem claim_C4_witness :
    (process_video
      { incoming := "/data/incoming", today := ⟨2024, 3, 15⟩,
        exifRead := Except.ok none, copyOk := true, openOk := true,
        durationVal := some 65, interval := 30,
        shutdownAt := fun _ => false, frameOk := fun _ => true,
        hasAudio := false, tzOffset := 0, stem := "MVI_0001" }).savedShots
      = ["MVI_0001_screenshot_00-00-00.jpg", "MVI_0001_screenshot_00-00-30.jpg",
         "MVI_0001_screenshot_00-01-00.jpg"]
    ∧ rangeFrom 65 30 0 = [0, 30, 60] := by
  have hr : rangeFrom 65 30 0 = [0, 30, 60] := by
    simp +decide only [rangeFrom_pos, rangeFrom_neg]
  have h := claim_C4
    { incoming := "/data/incoming", today := ⟨2024, 3, 15⟩,
      exifRead := Except.ok none, copyOk := true, openOk := true,
      durationVal := some 65, interval := 30,
      shutdownAt := fun _ => false, frameOk := fun _ => true,
      hasAudio := false, tzOffset := 0, stem := "MVI_0001" } 65
    rfl rfl rfl (by norm_num) (fun _ => rfl) (fun _ => rfl)
  refine ⟨h.1.trans ?_, hr⟩
  show (rangeFrom 65 30 0).map (screenshot_filename "MVI_0001" 0) = _
  rw [hr]
  decide

/-! ## Claim about screenshot names (C5) -/

/-- C5, evaluated at the failing input.  The source names screenshots
with `datetime.fromtimestamp(t).strftime("%H-%M-%S")`
(`camera_monitor.py:155`), which renders epoch second `t` in the LOCAL
timezone.  Run in timezone UTC+10 (offset 36000 s), the frame at
offset `t = 0` of a 65-second video is saved as
`MVI_0001_screenshot_10-00-00.jpg`, not the claimed
`MVI_0001_screenshot_00-00-00.jpg`; only a zero UTC offset reproduces
the claimed offset labels (`00-00-00`, and `01-01-01` for 3661). -/
theorem claim_C5 :
    hmsOffset 0 = "00-00-00"
    ∧ hmsOffset 3661 = "01-01-01"
    ∧ screenshot_filename "MVI_0001" 36000 0 = "MVI_0001_screenshot_10-00-00.jpg"
    ∧ screenshot_filename "MVI_0001" 36000 0
        ≠ "MVI_0001" ++ "_screenshot_" ++ hmsOffset 0 ++ ".jpg"
    ∧ framesLoop
        { incoming := "/data/incoming", today := ⟨2025, 1, 2⟩,
          exifRead := Except.ok none, copyOk := true, openOk := true,
          durationVal := some 65, interval := 30,
          shutdownAt := fun _ => false, frameOk := fun _ => true,
          hasAudio := false, tzOffset := 36000, stem := "MVI_0001" }
        [0, 30, 60] 0
      = ["MVI_0001_screenshot_10-00-00.jpg", "MVI_0001_screenshot_10-00-30.jpg",
         "MVI_0001_screenshot_10-01-00.jpg"] := by
  refine ⟨by decide, by decide, by decide, by decide, by decide⟩

/-! ## Claim about EXIF date buckets (C6) -/

/-- C6: an image whose EXIF original-capture tag reads
`2024:03:15 10:00:00` is archived under the `2024-03-15` bucket; when
the EXIF read raises, the tag is absent, or parsing fails, the date
falls back to today's bucket.  `extract_exif_date` is a total
function into `Option Date` — the `except` at
`camera_monitor.py:110-111` turns every read/parse failure into
`None`, so no such failure escapes as an error. -/
theorem claim_C6 (inc : String) (today : Date) (copyOk : Bool) :
    (process_image inc today
        (Except.ok (some ("2024:03:15 10:00:00".toList))) copyOk).createdDirs
      = [inc ++ "/" ++ fmtDate ⟨2024, 3, 15⟩]
    ∧ fmtDate ⟨2024, 3, 15⟩ = "2024-03-15"
    ∧ (∀ r, extract_exif_date r = none →
        (process_image inc today r copyOk).createdDirs
          = [inc ++ "/" ++ fmtDate today])
    ∧ extract_exif_date (Except.error ()) = none
    ∧ extract_exif_date (Except.ok none) = none := by
  refine ⟨?_, by decide, ?_, rfl, rfl⟩
  · have hp : extract_exif_date
        (Except.ok (some ("2024:03:15 10:00:00".toList)))
        = some ⟨2024, 3, 15⟩ := by decide
    simp only [process_image, bucketDate, hp, Option.getD_some]
  · intro r hr
    simp only [process_image, bucketDate, hr, Option.getD_none]

/-- C6, witness: with today = 2025-01-02, the EXIF-tagged image lands
in `/data/incoming/2024-03-15` and an image whose EXIF read fails
lands in `/data/incoming/2025-01-02`. -/
theorem claim_C6_witness :
    (process_image "/data/incoming" ⟨2025, 1, 2⟩
        (Except.ok (some ("2024:03:15 10:00:00".toList))) false).createdDirs
      = ["/data/incoming/2024-03-15"]
    ∧ (process_image "/data/incoming" ⟨2025, 1, 2⟩
        (Except.error ()) false).createdDirs
      = ["/data/incoming/2025-01-02"] := by
  have h := claim_C6 "/data/incoming" ⟨2025, 1, 2⟩ false
  exact ⟨h.1.trans (by decide),
    (h.2.2.1 (Except.error ()) h.2.2.2.1).trans (by decide)⟩

/-! ## Claim about bucket-directory creation (C7) -/

/-- C7, counterexample.  Both handlers call `mkdir` before attempting
the copy (`camera_monitor.py:122-124` and `140-142`): an image whose
copy fails still creates its date bucket, and a video whose copy fails
still creates both the date bucket and a `screencaps` sub-bucket even
though the bucket ends up holding no ingested video. -/
theorem claim_C7_counterexample :
    process_image "/data/incoming" ⟨2025, 1, 2⟩ (Except.ok none) false
      = { createdDirs := ["/data/incoming/2025-01-02"], copied := [] }
    ∧ process_video
        { incoming := "/data/incoming", today := ⟨2025, 1, 2⟩,
          exifRead := Except.ok none, copyOk := false, openOk := false,
          durationVal := none, interval := 30,
          shutdownAt := fun _ => false, frameOk := fun _ => false,
          hasAudio := false, tzOffset := 0, stem := "MVI_0001" }
      = { createdDirs := ["/data/incoming/2025-01-02",
                          "/data/incoming/2025-01-02/screencaps"],
          copiedVideo := false, opened := false, savedShots := [],
          readerClosed := false, audioClosed := false } := by
  refine ⟨by decide, by decide⟩

/-- C7, amended: bucket creation is eager, not lazy-on-first-write.
`process_image` creates the date bucket and `process_video` creates
the date bucket plus its `screencaps` sub-bucket unconditionally, on
every run and before any copy is attempted — so a `screencaps`
sub-bucket marks every attempted (not necessarily successful) video
ingest, `process_image` never creates one, and a file whose copy never
succeeds still leaves its freshly created bucket behind. -/
theorem claim_C7 (inc : String) (today : Date)
    (r : Except Unit (Option (List Char))) (c : Bool) (env : VideoEnv) :
    (process_image inc today r c).createdDirs
      = [inc ++ "/" ++ fmtDate (bucketDate r today)]
    ∧ (process_video env).createdDirs
      = [env.incoming ++ "/" ++ fmtDate (bucketDate env.exifRead env.today),
         env.incoming ++ "/" ++ fmtDate (bucketDate env.exifRead env.today)
           ++ "/screencaps"] := by
  constructor
  · rfl
  · unfold process_video
    split
    · split
      · split <;> try rfl
        split <;> rfl
      · rfl
    · rfl

/-! ## Claim about decoder-resource release (C8) -/

/-- C8, counterexample.  `process_video` has no `finally`: when
`int(clip.duration)` raises after the decoder has been opened
(`camera_monitor.py:146`, e.g. a `None` duration), the outer `except`
catches it and `clip.reader.close()` is never executed — the decoder
is opened but never closed on that exit path. -/
theorem claim_C8_counterexample :
    (process_video
      { incoming := "/data/incoming", today := ⟨2025, 1, 2⟩,
        exifRead := Except.ok none, copyOk := true, openOk := true,
        durationVal := none, interval := 30,
        shutdownAt := fun _ => false, frameOk := fun _ => true,
        hasAudio := true, tzOffset := 0, stem := "MVI_0001" }).opened = true
    ∧ (process_video
      { incoming := "/data/incoming", today := ⟨2025, 1, 2⟩,
        exifRead := Except.ok none, copyOk := true, openOk := true,
        durationVal := none, interval := 30,
        shutdownAt := fun _ => false, frameOk := fun _ => true,
        hasAudio := true, tzOffset := 0, stem := "MVI_0001" }).readerClosed
      = false := by
  refine ⟨by decide, by decide⟩

/-- C8, amended: on the exit paths the specification enumerates —
normal completion, per-frame extraction failure (any `frameOk`
pattern), and cancellation (any `shutdownAt` pattern) — the reader is
closed and the audio reader is closed exactly when audio is present;
this needs the copy, the decoder open and `int(clip.duration)` to
succeed and a positive interval, since an exception raised after the
decoder is opened skips both closes (no `finally`). -/
theorem claim_C8 (env : VideoEnv) (D : Nat)
    (hcopy : env.copyOk = true) (hopen : env.openOk = true)
    (hdur : env.durationVal = some D) (hI : 0 < env.interval) :
    (process_video env).opened = true
    ∧ (process_video env).readerClosed = true
    ∧ (process_video env).audioClosed = env.hasAudio := by
  have hr : pyRange0 D env.interval = some (rangeFrom D env.interval 0) := by
    unfold pyRange0
    rw [if_neg (by omega)]
  simp only [process_video, hcopy, hopen, hdur, if_true, hr]
  exact ⟨trivial, trivial, trivial⟩

/-- C8, witness: a run that is cancelled at loop iteration 1 and fails
frame extraction at offset 30 still closes both the video reader and
the audio reader of its audio-bearing clip. -/
theorem claim_C8_witness :
    (process_video
      { incoming := "/data/incoming", today := ⟨2025, 1, 2⟩,
        exifRead := Except.ok none, copyOk := true, openOk := true,
        durationVal := some 65, interval := 30,
        shutdownAt := fun k => decide (k = 1),
        frameOk := fun t => decide (t ≠ 30),
        hasAudio := true, tzOffset := 0, stem := "MVI_0001" }).readerClosed
      = true
    ∧ (process_video
      { incoming := "/data/incoming", today := ⟨2025, 1, 2⟩,
        exifRead := Except.ok none, copyOk := true, openOk := true,
        durationVal := some 65, interval := 30,
        shutdownAt := fun k => decide (k = 1),
        frameOk := fun t => decide (t ≠ 30),
        hasAudio := true, tzOffset := 0, stem := "MVI_0001" }).audioClosed
      = true := by
  have h := claim_C8
    { incoming := "/data/incoming", today := ⟨2025, 1, 2⟩,
      exifRead := Except.ok none, copyOk := true, openOk := true,
      durationVal := some 65, interval := 30,
      shutdownAt := fun k => decide (k = 1),
      frameOk := fun t => decide (t ≠ 30),
      hasAudio := true, tzOffset := 0, stem := "MVI_0001" } 65
    rfl rfl rfl (by norm_num)
  exact ⟨h.2.1, h.2.2⟩

/-! ## Lemmas about `Path.suffix` -/

theorem pySuffixCore_shape :
    ∀ (l s : List Char), pySuffixCore l = some s → ∃ t, s = '.' :: t := by
  intro l
  induction l with
  | nil =>
    intro s h
    exact absurd h (by simp [pySuffixCore])
  | cons c cs ih =>
    intro s h
    unfold pySuffixCore at h
    cases hcs : pySuffixCore cs with
    | some s' =>
      rw [hcs] at h
      injection h with h'
      exact h' ▸ ih s' hcs
    | none =>
      rw [hcs] at h
      by_cases hc : c = '.'
      · rw [if_pos hc] at h
        injection h with h'
        exact ⟨cs, by rw [← h', hc]⟩
      · rw [if_neg hc] at h
        cases h

theorem pySuffix_shape (name : List Char) :
    pySuffix name = [] ∨ ∃ t, pySuffix name = '.' :: t := by
  unfold pySuffix
  cases name with
  | nil => left; rfl
  | cons c cs =>
    cases hcs : pySuffixCore cs with
    | none => left; simp [hcs]
    | some s =>
      by_cases hl : 2 ≤ s.length
      · right
        obtain ⟨t, rfl⟩ := pySuffixCore_shape cs s hcs
        refine ⟨t, ?_⟩
        simp only [hcs]
        rw [if_pos hl]
      · left
        simp [hcs, hl]

/-! ## Claim about file-type dispatch (C9) -/

/-- C9: `process_file` compares `file_path.suffix.lower()` — which is
either empty or begins with the dot `pathlib` keeps on suffixes —
verbatim against the configured lists (`camera_monitor.py:172-174`),
so a configured extension that is nonempty yet lacks the leading dot
(such as `jpg` instead of `.jpg`) can never equal any file's lowered
suffix; and a file whose lowered suffix sits in neither list is
dispatched to the info-logged skip branch, not an error. -/
theorem claim_C9 (image_extensions video_extensions : List (List Char))
    (name ext : List Char) :
    (ext ≠ [] → ext.head? ≠ some '.' → toLowerL (pySuffix name) ≠ ext)
    ∧ (toLowerL (pySuffix name) ∉ image_extensions →
        toLowerL (pySuffix name) ∉ video_extensions →
        process_file image_extensions video_extensions name
          = FileAction.skipped) := by
  constructor
  · intro hne hdot heq
    rcases pySuffix_shape name with h | ⟨t, h⟩
    · rw [h] at heq
      exact hne heq.symm
    · rw [h] at heq
      have : ext.head? = some '.' := by
        rw [← heq]
        rfl
      exact hdot this
  · intro h1 h2
    simp only [process_file]
    rw [if_neg h1, if_neg h2]

/-- C9, witness: with `image_extensions = "jpg"` (no dot) the file
`photo.jpg` — lowered suffix `.jpg` — matches nothing, and since its
suffix is in neither list it is skipped. -/
theorem claim_C9_witness :
    toLowerL (pySuffix "photo.jpg".toList) ≠ "jpg".toList
    ∧ process_file (commaListConfig "jpg".toList)
        (commaListConfig ".mp4".toList) "photo.jpg".toList
      = FileAction.skipped := by
  have h := claim_C9 (commaListConfig "jpg".toList)
    (commaListConfig ".mp4".toList) "photo.jpg".toList "jpg".toList
  exact ⟨h.1 (by decide) (by decide), h.2 (by decide) (by decide)⟩

end CameraMonitor
